import Mathlib

/-!
Verification of the anomaly-detection pipeline for financial IT logs.

The development embeds, as Lean definitions over lists of records, the
row-level operations of the two Python scripts
(detecao_anomalia_logs_financeiro.py and
detecao_anomalia_logs_financeiro_ler_arquivo.py): feature extraction,
event classification, alert generation and configuration handling.
Columns of the pandas DataFrame become fields of per-row records, and
DataFrame column assignments become index-aligned list maps.

The parts of the behaviour that live inside the external IsolationForest
library (the score-to-label decision policy, the validation of the
contamination parameter and of the training-batch size) are not present in
the repository source; those definitions are modelled from the spec and are
marked as such in their doc comments.
-/

namespace DeteccaoAnomalia

/-- A parsed timestamp, as produced by pd.to_datetime on the
"%Y-%m-%d %H:%M:%S" format; only the hour field is consumed by the core. -/
structure DataHora where
  ano : Nat
  mes : Nat
  dia : Nat
  hora : Nat
  minuto : Nat
  segundo : Nat
deriving DecidableEq

/-- One parsed log row, the columns produced by ingestao_logs:
timestamp, ip, nivel, mensagem. -/
structure Evento where
  timestamp : DataHora
  ip : List Char
  nivel : List Char
  mensagem : List Char
deriving DecidableEq

/-- Exact character-list prefix test (helper for the substring test). -/
def prefixoIgual : List Char → List Char → Bool
  | [], _ => true
  | _ :: _, [] => false
  | a :: as, b :: bs => a == b && prefixoIgual as bs

/-- Containment of a contiguous character substring, the meaning of the
Python expression needle in haystack on strings. -/
def contemSub (agulha : List Char) : List Char → Bool
  | [] => agulha.isEmpty
  | b :: bs => prefixoIgual agulha (b :: bs) || contemSub agulha bs

/-- Character-wise lower-casing, the meaning of str.lower(). -/
def toLowerStr (s : List Char) : List Char := s.map Char.toLower

/-- The keyword searched for by the source lambda in extrai_features. -/
def palavraAtaque : List Char := "ataque".toList

/-- The possivel_ataque column of extrai_features, from the source lambda:
1 if "ataque" in x.lower() else 0. -/
def possivel_ataque (mensagem : List Char) : Int :=
  if contemSub palavraAtaque (toLowerStr mensagem) then 1 else 0

/-- The three severity tiers produced by classifica_eventos
("Normal", "Suspeito", "Crítico" in the source). -/
inductive Severidade where
  | Normal
  | Suspeito
  | Critico
deriving DecidableEq

/-- classifica_eventos from the source: reads only row['anomaly'] and
row['possivel_ataque'] and returns one of the three tiers. -/
def classifica_eventos (anomaly : Int) (ataque : Int) : Severidade :=
  if anomaly = -1 ∧ ataque = 1 then Severidade.Critico
  else if anomaly = 1 ∧ ataque = 1 then Severidade.Suspeito
  else Severidade.Normal

/-- A row after extrai_features: the original Evento columns plus the two
derived columns possivel_ataque and hora. -/
structure EventoFeatures where
  evento : Evento
  possivel_ataque : Int
  hora : Nat
deriving DecidableEq

/-- extrai_features from the source: adds the possivel_ataque column
(attack-keyword flag of the mensagem column) and the hora column
(timestamp.dt.hour), leaving the original columns as they are. -/
def extrai_features (df : List Evento) : List EventoFeatures :=
  df.map fun e => ⟨e, possivel_ataque e.mensagem, e.timestamp.hora⟩

/-- The error taxonomy of the spec for the detection core. -/
inductive ErroDeteccao where
  | InsufficientDataError
  | InvalidParameterError
  | DimensionMismatchError
  | MalformedEventError
deriving DecidableEq

/-- Modelled from the spec: the fit contract of the Isolation Ensemble
(the call modelo_if.fit in the source delegates to the external library,
whose code is not in the repository). Fit requires a batch of at least two
feature vectors and fails with InsufficientDataError otherwise; the fitted
ensemble itself is opaque to every claim, so the model keeps only the
training batch. A feature vector is the pair (hora, possivel_ataque). -/
def fit (vectors : List (Nat × Int)) : Except ErroDeteccao (List (Nat × Int)) :=
  if vectors.length < 2 then Except.error ErroDeteccao.InsufficientDataError
  else Except.ok vectors

/-- Modelled from the spec: the threshold of the anomaly decision policy,
the (1 - contamination)-quantile of the batch scores (the inverse-CDF
quantile: the entry of rank ceil((1-c)*N) of the scores sorted
ascending). The policy lives inside the external library's predict, not in
the repository source. -/
def limiar (scores : List ℚ) (c : ℚ) : ℚ :=
  (List.insertionSort (· ≤ ·) scores).getD ((⌈(1 - c) * (scores.length : ℚ)⌉).toNat - 1) 0

/-- Modelled from the spec: the score-to-label decision policy of
modelo_if.predict. Any score at or above the threshold is labeled -1
(anomalous, ties at the boundary included); any score below it is +1. -/
def predict (scores : List ℚ) (c : ℚ) : List Int :=
  scores.map fun s => if limiar scores c ≤ s then -1 else 1

/-- detectar_anomalias from the source, with the library-internal parts
modelled from the spec: the contamination parameter must lie in (0,1)
(InvalidParameterError otherwise), the batch must have at least two rows
(InsufficientDataError otherwise), and the anomaly column is the decision
policy applied to the anomaly_score column, which the fitted ensemble
supplies and which this embedding therefore takes as an input. -/
def detectar_anomalias (scores : List ℚ) (c : ℚ) : Except ErroDeteccao (List Int) :=
  if 0 < c ∧ c < 1 then
    if scores.length < 2 then Except.error ErroDeteccao.InsufficientDataError
    else Except.ok (predict scores c)
  else Except.error ErroDeteccao.InvalidParameterError

/-- A fully processed row: original columns, derived feature columns, the
anomaly_score and anomaly columns of detectar_anomalias, and the
classificacao column of classifica_eventos. -/
structure EventoClassificado where
  evento : Evento
  possivel_ataque : Int
  hora : Nat
  anomaly_score : ℚ
  anomaly : Int
  classificacao : Severidade
deriving DecidableEq

/-- The row-wise assembly of the processed DataFrame: each row joins its
features with its score and label and applies classifica_eventos, exactly
as df.apply(classifica_eventos, axis=1) does after the score and anomaly
columns are assigned positionally. -/
def classificaLinhas (feats : List EventoFeatures) (scores : List ℚ)
    (labels : List Int) : List EventoClassificado :=
  (feats.zip (scores.zip labels)).map fun p =>
    ⟨p.1.evento, p.1.possivel_ataque, p.1.hora, p.2.1, p.2.2,
      classifica_eventos p.2.2 p.1.possivel_ataque⟩

/-- The end-to-end pipeline on one batch, as run in the source's main block:
extrai_features, then detectar_anomalias, then the per-row classification.
The scores input stands for the anomaly_score column computed by the
fitted ensemble (one score per row, positionally assigned). -/
def pipeline (eventos : List Evento) (scores : List ℚ) (c : ℚ) :
    Except ErroDeteccao (List EventoClassificado) :=
  match detectar_anomalias scores c with
  | Except.error e => Except.error e
  | Except.ok labels => Except.ok (classificaLinhas (extrai_features eventos) scores labels)

/-- An alert record: the four Evento fields interpolated into the alert
message by gerar_alertas. -/
structure Alerta where
  timestamp : DataHora
  ip : List Char
  nivel : List Char
  mensagem : List Char
deriving DecidableEq

/-- The alert built from one classified row: a verbatim copy of the
underlying event's fields. -/
def alertaDe (e : EventoClassificado) : Alerta :=
  ⟨e.evento.timestamp, e.evento.ip, e.evento.nivel, e.evento.mensagem⟩

/-- gerar_alertas from the source: filters the rows whose classificacao is
"Crítico" and emits one alert per surviving row, in order. The source
prints each alert; the emitted list models the sequence of alerts
produced. -/
def gerar_alertas (df : List EventoClassificado) : List Alerta :=
  (df.filter fun e => decide (e.classificacao = Severidade.Critico)).map alertaDe

/-- The three relevant states of the configuration file consumed by
ler_config_contexto: absent, present but unparseable JSON, or a parsed
JSON object (modelled as an association list of numeric fields, the only
kind the pipeline consumes). -/
inductive ArquivoConfig where
  | ausente
  | malformado
  | valido (config : List (List Char × ℚ))

/-- ler_config_contexto from the source: returns the parsed object when the
file exists and parses, and the empty dictionary when the file is missing
or the JSON decoder fails. -/
def ler_config_contexto : ArquivoConfig → List (List Char × ℚ)
  | ArquivoConfig.ausente => []
  | ArquivoConfig.malformado => []
  | ArquivoConfig.valido config => config

/-- config.get("contamination", 0.1) from detectar_anomalias in the
source. -/
def contaminacaoDe (config : List (List Char × ℚ)) : ℚ :=
  (config.lookup ("contamination".toList)).getD (1 / 10)

/-- Default Evento used only as the getD fallback in index statements. -/
def eventoPadrao : Evento := ⟨⟨0, 0, 0, 0, 0, 0⟩, [], [], []⟩

/-- Default classified row used only as the getD fallback in index
statements. -/
def linhaPadrao : EventoClassificado := ⟨eventoPadrao, 0, 0, 0, 0, Severidade.Normal⟩

/-- C1: over the domain {-1,+1}x{0,1} the severity classifier returns
exactly the spec's decision table — (-1,1) Critical, (+1,1) Suspicious,
(-1,0) Normal, (+1,0) Normal — and, consulting nothing beyond its two
arguments, it can produce no outcome outside the three tiers. -/
theorem C1_tabela_severidade :
    classifica_eventos (-1) 1 = Severidade.Critico ∧
    classifica_eventos 1 1 = Severidade.Suspeito ∧
    classifica_eventos (-1) 0 = Severidade.Normal ∧
    classifica_eventos 1 0 = Severidade.Normal ∧
    ∀ a s : Int, classifica_eventos a s = Severidade.Normal ∨
      classifica_eventos a s = Severidade.Suspeito ∨
      classifica_eventos a s = Severidade.Critico := by
  refine ⟨by decide, by decide, by decide, by decide, ?_⟩
  intro a s
  unfold classifica_eventos
  split_ifs <;> simp

/-- C10: for every input pair outside the four combinations of the decision
table, the severity classifier still returns a result and that result is
Normal (the default branch). -/
theorem C10_entrada_inesperada_normal (a s : Int)
    (h : ¬ ((a = -1 ∨ a = 1) ∧ (s = 0 ∨ s = 1))) :
    classifica_eventos a s = Severidade.Normal := by
  unfold classifica_eventos
  split_ifs with h1 h2
  · exact absurd ⟨Or.inl h1.1, Or.inr h1.2⟩ h
  · exact absurd ⟨Or.inr h2.1, Or.inr h2.2⟩ h
  · rfl

/-- Witness for C10 at the concrete unanticipated input (2, 1). -/
theorem C10_entrada_inesperada_normal_witness :
    ¬ (((2 : Int) = -1 ∨ (2 : Int) = 1) ∧ ((1 : Int) = 0 ∨ (1 : Int) = 1)) ∧
    classifica_eventos 2 1 = Severidade.Normal :=
  ⟨by decide, C10_entrada_inesperada_normal 2 1 (by decide)⟩

/-- C3 counterexample: the message "Possivel attack detectado" contains the
case-insensitive substring "attack", yet the extractor sets the signal to
0, refuting the claim that the signal is 1 whenever "attack" or "ataque"
occurs. -/
theorem C3_contraexemplo :
    contemSub ("attack".toList) (toLowerStr ("Possivel attack detectado".toList)) = true ∧
    possivel_ataque ("Possivel attack detectado".toList) = 0 := by
  constructor
  · decide
  · decide

/-- C3 amended: the extractor sets attack_signal to 1 exactly when the
message contains the case-insensitive substring "ataque", and to 0
otherwise; the keyword "attack" plays no role. -/
theorem C3_sinal_ataque (mensagem : List Char) :
    (possivel_ataque mensagem = 1 ↔
      contemSub palavraAtaque (toLowerStr mensagem) = true) ∧
    (possivel_ataque mensagem = 0 ↔
      contemSub palavraAtaque (toLowerStr mensagem) = false) := by
  unfold possivel_ataque
  by_cases h : contemSub palavraAtaque (toLowerStr mensagem) = true
  · rw [if_pos h]
    simp [h]
  · rw [if_neg h]
    simp only [Bool.not_eq_true] at h
    simp [h]

/-- C9: feature extraction is pure with respect to the caller's data — the
existing fields and records of the input collection are carried unchanged
into the output (projecting the output back onto the original columns
recovers the input exactly, record for record). -/
theorem C9_extrai_features_pura (df : List Evento) :
    (extrai_features df).map EventoFeatures.evento = df ∧
    (extrai_features df).length = df.length := by
  constructor
  · simp [extrai_features, Function.comp_def]
  · simp [extrai_features]

/-- C5: the alert emitter produces exactly one alert per Critical row (the
output length is the count of Critical rows), every alert is a verbatim
copy of the fields of some Critical row, the alert sequence preserves the
input order (it is a sublist of the rows' alert images), and the empty
input yields the empty, non-error output. -/
theorem C5_alertas (df : List EventoClassificado) :
    (gerar_alertas df).length =
      df.countP (fun e => decide (e.classificacao = Severidade.Critico)) ∧
    (∀ a ∈ gerar_alertas df, ∃ e ∈ df,
      e.classificacao = Severidade.Critico ∧ a = alertaDe e) ∧
    List.Sublist (gerar_alertas df) (df.map alertaDe) ∧
    gerar_alertas ([] : List EventoClassificado) = [] := by
  refine ⟨?_, ?_, ?_, rfl⟩
  · simp [gerar_alertas, List.countP_eq_length_filter]
  · intro a ha
    simp only [gerar_alertas, List.mem_map, List.mem_filter] at ha
    obtain ⟨e, ⟨hmem, hcrit⟩, hsome⟩ := ha
    exact ⟨e, hmem, by simpa using hcrit, hsome.symm⟩
  · exact List.Sublist.map alertaDe (List.filter_sublist df)

/-- Witness for C5 on a concrete two-row batch with one Critical row. -/
theorem C5_alertas_witness :
    (gerar_alertas [⟨eventoPadrao, 1, 9, 0, -1, Severidade.Critico⟩,
        ⟨eventoPadrao, 0, 9, 0, 1, Severidade.Normal⟩]).length =
      ([⟨eventoPadrao, 1, 9, 0, -1, Severidade.Critico⟩,
        ⟨eventoPadrao, 0, 9, 0, 1, Severidade.Normal⟩] :
          List EventoClassificado).countP
        (fun e => decide (e.classificacao = Severidade.Critico)) :=
  (C5_alertas _).1

/-- C6: fitting on a batch of fewer than two feature vectors fails with
InsufficientDataError, and fitting on a batch of at least two succeeds
(so in particular never raises that error). -/
theorem C6_fit_dados_insuficientes (vectors : List (Nat × Int)) :
    (vectors.length < 2 →
      fit vectors = Except.error ErroDeteccao.InsufficientDataError) ∧
    (2 ≤ vectors.length → fit vectors = Except.ok vectors) := by
  constructor
  · intro h
    unfold fit
    rw [if_pos h]
  · intro h
    unfold fit
    rw [if_neg (by omega)]

/-- Witness for C6: the empty batch fails with InsufficientDataError and a
two-vector batch fits without error. -/
theorem C6_fit_dados_insuficientes_witness :
    ([] : List (Nat × Int)).length < 2 ∧
    fit ([] : List (Nat × Int)) = Except.error ErroDeteccao.InsufficientDataError ∧
    2 ≤ ([(9, 0), (3, 1)] : List (Nat × Int)).length ∧
    fit ([(9, 0), (3, 1)] : List (Nat × Int)) = Except.ok [(9, 0), (3, 1)] :=
  ⟨by decide, (C6_fit_dados_insuficientes []).1 (by decide),
    by decide, (C6_fit_dados_insuficientes [(9, 0), (3, 1)]).2 (by decide)⟩

/-- C7: for every contamination value outside the open interval (0,1) the
anomaly decision step fails with InvalidParameterError and produces no
labels. -/
theorem C7_parametro_invalido (scores : List ℚ) (c : ℚ)
    (h : ¬ (0 < c ∧ c < 1)) :
    detectar_anomalias scores c = Except.error ErroDeteccao.InvalidParameterError := by
  unfold detectar_anomalias
  rw [if_neg h]

/-- Witness for C7 at the concrete out-of-range contamination 2. -/
theorem C7_parametro_invalido_witness :
    ¬ ((0 : ℚ) < 2 ∧ (2 : ℚ) < 1) ∧
    detectar_anomalias [1, 2] 2 = Except.error ErroDeteccao.InvalidParameterError :=
  ⟨by norm_num, C7_parametro_invalido [1, 2] 2 (by norm_num)⟩

/-- C8: when the configuration file is absent, unparseable, or lacks the
contamination field, the resolved contamination is the documented default
1/10, and with that default the detection step does not fail on any batch
of at least two rows. -/
theorem C8_config_padrao (cf : ArquivoConfig)
    (h : cf = ArquivoConfig.ausente ∨ cf = ArquivoConfig.malformado ∨
      ∃ d, cf = ArquivoConfig.valido d ∧
        d.lookup ("contamination".toList) = none) :
    contaminacaoDe (ler_config_contexto cf) = 1 / 10 ∧
    ∀ scores : List ℚ, 2 ≤ scores.length →
      detectar_anomalias scores (contaminacaoDe (ler_config_contexto cf)) =
        Except.ok (predict scores (contaminacaoDe (ler_config_contexto cf))) := by
  have hval : contaminacaoDe (ler_config_contexto cf) = 1 / 10 := by
    rcases h with h | h | ⟨d, hd, hnone⟩
    · rw [h]
      rfl
    · rw [h]
      rfl
    · rw [hd]
      unfold contaminacaoDe ler_config_contexto
      rw [hnone]
      rfl
  refine ⟨hval, ?_⟩
  intro scores hlen
  rw [hval]
  unfold detectar_anomalias
  rw [if_pos (by norm_num), if_neg (by omega)]

/-- Witness for C8 with the configuration file absent and a concrete
two-score batch. -/
theorem C8_config_padrao_witness :
    (ArquivoConfig.ausente = ArquivoConfig.ausente ∨
      ArquivoConfig.ausente = ArquivoConfig.malformado ∨
      ∃ d, ArquivoConfig.ausente = ArquivoConfig.valido d ∧
        d.lookup ("contamination".toList) = none) ∧
    contaminacaoDe (ler_config_contexto ArquivoConfig.ausente) = 1 / 10 ∧
    detectar_anomalias [1, 2]
        (contaminacaoDe (ler_config_contexto ArquivoConfig.ausente)) =
      Except.ok (predict [1, 2]
        (contaminacaoDe (ler_config_contexto ArquivoConfig.ausente))) :=
  ⟨Or.inl rfl, (C8_config_padrao ArquivoConfig.ausente (Or.inl rfl)).1,
    (C8_config_padrao ArquivoConfig.ausente (Or.inl rfl)).2 [1, 2] (by decide)⟩

/-- Sample event for concrete witnesses: a normal access row. -/
def eventoUm : Evento :=
  ⟨⟨2024, 1, 1, 9, 0, 0⟩, "10.0.0.1".toList, "INFO".toList, "Acesso permitido".toList⟩

/-- Sample event for concrete witnesses: a row whose message carries the
attack keyword. -/
def eventoDois : Evento :=
  ⟨⟨2024, 1, 1, 3, 0, 0⟩, "10.0.0.2".toList, "ERROR".toList,
    "Possivel ataque detectado".toList⟩

/-- C4: on the success path, the pipeline emits exactly one classified row
per input event, and the i-th output row derives from the i-th input
event: its event fields, feature columns, score, label and severity are
the ones computed from eventos[i] and scores[i]. -/
theorem C4_alinhamento_indices (eventos : List Evento) (scores : List ℚ) (c : ℚ)
    (hlen : scores.length = eventos.length)
    (hc0 : 0 < c) (hc1 : c < 1) (hn : 2 ≤ scores.length) :
    ∃ out, pipeline eventos scores c = Except.ok out ∧
      out.length = eventos.length ∧
      ∀ i, i < eventos.length →
        out.getD i linhaPadrao =
          ⟨eventos.getD i eventoPadrao,
            possivel_ataque (eventos.getD i eventoPadrao).mensagem,
            (eventos.getD i eventoPadrao).timestamp.hora,
            scores.getD i 0,
            (if limiar scores c ≤ scores.getD i 0 then -1 else 1),
            classifica_eventos
              (if limiar scores c ≤ scores.getD i 0 then -1 else 1)
              (possivel_ataque (eventos.getD i eventoPadrao).mensagem)⟩ := by
  have hdet : detectar_anomalias scores c = Except.ok (predict scores c) := by
    unfold detectar_anomalias
    rw [if_pos ⟨hc0, hc1⟩, if_neg (by omega)]
  have hol : (classificaLinhas (extrai_features eventos) scores
      (predict scores c)).length = eventos.length := by
    simp [classificaLinhas, extrai_features, predict, hlen]
  refine ⟨classificaLinhas (extrai_features eventos) scores (predict scores c),
    ?_, hol, ?_⟩
  · unfold pipeline
    rw [hdet]
  · intro i hi
    have hi' : i < (classificaLinhas (extrai_features eventos) scores
        (predict scores c)).length := by rw [hol]; exact hi
    have his : i < scores.length := by omega
    rw [List.getD_eq_getElem _ _ hi', List.getD_eq_getElem eventos _ hi,
      List.getD_eq_getElem scores _ his]
    simp [classificaLinhas, extrai_features, predict, List.getElem_zip, List.getElem_map]

/-- Witness for C4 on a concrete two-event batch. -/
theorem C4_alinhamento_indices_witness :
    ([1 / 2, 3 / 4] : List ℚ).length = [eventoUm, eventoDois].length ∧
    (0 : ℚ) < 1 / 10 ∧ (1 / 10 : ℚ) < 1 ∧
    2 ≤ ([1 / 2, 3 / 4] : List ℚ).length ∧
    ∃ out, pipeline [eventoUm, eventoDois] [1 / 2, 3 / 4] (1 / 10) = Except.ok out ∧
      out.length = 2 := by
  refine ⟨by decide, by norm_num, by norm_num, by decide, ?_⟩
  obtain ⟨out, h1, h2, h3⟩ :=
    C4_alinhamento_indices [eventoUm, eventoDois] [1 / 2, 3 / 4] (1 / 10)
      (by decide) (by norm_num) (by norm_num) (by decide)
  exact ⟨out, h1, h2⟩

/-- In a strictly sorted list, the entries at or above the entry at
position j are exactly the entries from position j on. -/
theorem countP_getD_sorted (l : List ℚ) (hs : l.Sorted (· < ·))
    (j : Nat) (hj : j < l.length) :
    l.countP (fun x => decide (l.getD j 0 ≤ x)) = l.length - j := by
  have htg : l.getD j 0 = l[j] := List.getD_eq_getElem l 0 hj
  have hdropcons : l[j] :: l.drop (j + 1) = l.drop j := List.getElem_cons_drop l j hj
  have htmem : l.getD j 0 ∈ l.drop j := by
    rw [htg, ← hdropcons]
    exact List.mem_cons_self _ _
  have hpwfull : List.Pairwise (· < ·) (l.take j ++ l.drop j) := by
    rw [List.take_append_drop]
    exact hs
  obtain ⟨hpt, hpd, hcross⟩ := List.pairwise_append.mp hpwfull
  have htake : ∀ x ∈ l.take j, ¬ (l.getD j 0 ≤ x) :=
    fun x hx => not_le.mpr (hcross x hx _ htmem)
  have hdropge : ∀ x ∈ l.drop j, l.getD j 0 ≤ x := by
    intro x hx
    rw [← hdropcons] at hx hpd
    rcases List.mem_cons.mp hx with h | h
    · rw [htg, h]
    · exact le_of_lt (htg ▸ (List.pairwise_cons.mp hpd).1 x h)
  have h1 : (l.take j).countP (fun x => decide (l.getD j 0 ≤ x)) = 0 := by
    apply List.countP_eq_zero.mpr
    intro a ha
    simpa using htake a ha
  have h2 : (l.drop j).countP (fun x => decide (l.getD j 0 ≤ x)) = (l.drop j).length := by
    apply List.countP_eq_length.mpr
    intro a ha
    simpa using hdropge a ha
  calc l.countP (fun x => decide (l.getD j 0 ≤ x))
      = (l.take j ++ l.drop j).countP (fun x => decide (l.getD j 0 ≤ x)) := by
        rw [List.take_append_drop]
    _ = 0 + (l.drop j).length := by rw [List.countP_append, h1, h2]
    _ = l.length - j := by rw [List.length_drop]; omega

/-- Transfer of the sorted-position count to the unsorted score list. -/
theorem count_countP_sorted (scores : List ℚ) (t : ℚ) (j : Nat)
    (hnd : scores.Nodup) (hj : j < scores.length)
    (ht : t = (List.insertionSort (· ≤ ·) scores).getD j 0) :
    scores.countP (fun x => decide (t ≤ x)) = scores.length - j := by
  have hperm : (List.insertionSort (· ≤ ·) scores).Perm scores :=
    List.perm_insertionSort _ scores
  have hlen : (List.insertionSort (· ≤ ·) scores).length = scores.length :=
    hperm.length_eq
  have hsorted : (List.insertionSort (· ≤ ·) scores).Sorted (· ≤ ·) :=
    List.sorted_insertionSort _ scores
  have hndl : (List.insertionSort (· ≤ ·) scores).Nodup := hperm.nodup_iff.mpr hnd
  have hstrict := hsorted.lt_of_le hndl
  have h := countP_getD_sorted (List.insertionSort (· ≤ ·) scores) hstrict j (by omega)
  rw [← ht] at h
  rw [← hperm.countP_eq, h, hlen]

/-- The ceiling arithmetic behind the quantile rank. -/
theorem ceil_um_menos (c : ℚ) (N : Nat) :
    ⌈(1 - c) * (N : ℚ)⌉ = (N : ℤ) - ⌊c * (N : ℚ)⌋ := by
  have h : (1 - c) * (N : ℚ) = -(c * (N : ℚ)) + ((N : ℤ) : ℚ) := by
    push_cast
    ring
  rw [h, Int.ceil_add_int, Int.ceil_neg]
  ring

/-- Counting -1 labels is counting scores at or above the threshold. -/
theorem count_predict_eq (scores : List ℚ) (c : ℚ) :
    (predict scores c).count (-1) =
      scores.countP (fun s => decide (limiar scores c ≤ s)) := by
  unfold predict
  rw [List.count_eq_countP, List.countP_map]
  apply List.countP_congr
  intro a _
  by_cases h : limiar scores c ≤ a
  · simp [h]
  · simp [h]

/-- Exact count of -1 labels on a duplicate-free batch: floor(c*N) + 1. -/
theorem count_predict_nodup (scores : List ℚ) (c : ℚ)
    (hne : scores ≠ []) (hnd : scores.Nodup) (hc0 : 0 < c) (hc1 : c < 1) :
    ((predict scores c).count (-1) : ℤ) = ⌊c * (scores.length : ℚ)⌋ + 1 := by
  have hNpos : 0 < scores.length := List.length_pos.mpr hne
  have hk0 : 0 ≤ ⌊c * (scores.length : ℚ)⌋ :=
    Int.floor_nonneg.mpr (mul_nonneg hc0.le (by positivity))
  have hkN : ⌊c * (scores.length : ℚ)⌋ < (scores.length : ℤ) := by
    rw [Int.floor_lt]
    exact_mod_cast mul_lt_of_lt_one_left (by exact_mod_cast hNpos) hc1
  have hceil : ⌈(1 - c) * (scores.length : ℚ)⌉ =
      (scores.length : ℤ) - ⌊c * (scores.length : ℚ)⌋ :=
    ceil_um_menos c scores.length
  have hjlt : (⌈(1 - c) * (scores.length : ℚ)⌉).toNat - 1 < scores.length := by omega
  have hcnt := count_countP_sorted scores (limiar scores c)
    ((⌈(1 - c) * (scores.length : ℚ)⌉).toNat - 1) hnd hjlt rfl
  rw [count_predict_eq, hcnt]
  omega

/-- C2 counterexample: on the all-equal batch [0,0,0,0,0] with
contamination 1/5 the inclusive boundary labels every score -1, so the
count of -1 labels is 5 while round(c*N) is 1 — farther than 1 apart. -/
theorem C2_contraexemplo :
    (0 : ℚ) < 1 / 5 ∧ (1 / 5 : ℚ) < 1 ∧ ([0, 0, 0, 0, 0] : List ℚ) ≠ [] ∧
    (predict [0, 0, 0, 0, 0] (1 / 5)).count (-1) = 5 ∧
    round ((1 / 5 : ℚ) * (([0, 0, 0, 0, 0] : List ℚ).length : ℚ)) = 1 ∧
    ¬ (((predict [0, 0, 0, 0, 0] (1 / 5)).count (-1) : ℤ) -
        round ((1 / 5 : ℚ) * (([0, 0, 0, 0, 0] : List ℚ).length : ℚ))).natAbs ≤ 1 := by
  have hlim : limiar [0, 0, 0, 0, 0] (1 / 5) = 0 := by
    unfold limiar
    norm_num [List.insertionSort, List.orderedInsert]
    decide
  have hpred : predict [0, 0, 0, 0, 0] (1 / 5) = [-1, -1, -1, -1, -1] := by
    unfold predict
    rw [hlim]
    norm_num
  have hround : round ((1 / 5 : ℚ) * (([0, 0, 0, 0, 0] : List ℚ).length : ℚ)) = 1 := by
    rw [round_eq]
    norm_num
  refine ⟨by norm_num, by norm_num, by simp, ?_, hround, ?_⟩
  · rw [hpred]
    rfl
  · rw [hpred, hround]
    decide

/-- C2 amended: for every non-empty batch and contamination in (0,1), the
policy labels -1 exactly the scores at or above the (1-c)-quantile
threshold — ties at the boundary all labeled anomalous — and +1 the scores
below it; and whenever the scores are additionally pairwise distinct, the
count of -1 labels is floor(c*N)+1, which is within 1 of round(c*N). -/
theorem C2_politica_decisao (scores : List ℚ) (c : ℚ)
    (hne : scores ≠ []) (hc0 : 0 < c) (hc1 : c < 1) :
    (∀ i, i < scores.length →
      ((predict scores c).getD i 0 = -1 ↔ limiar scores c ≤ scores.getD i 0) ∧
      ((predict scores c).getD i 0 = 1 ↔ scores.getD i 0 < limiar scores c)) ∧
    (scores.Nodup →
      ((predict scores c).count (-1) : ℤ) = ⌊c * (scores.length : ℚ)⌋ + 1 ∧
      (((predict scores c).count (-1) : ℤ) -
        round (c * (scores.length : ℚ))).natAbs ≤ 1) := by
  constructor
  · intro i hi
    have hpl : i < (predict scores c).length := by simpa [predict] using hi
    rw [List.getD_eq_getElem _ _ hpl, List.getD_eq_getElem scores _ hi]
    simp only [predict, List.getElem_map]
    by_cases h : limiar scores c ≤ scores[i]
    · rw [if_pos h]
      exact ⟨⟨fun _ => h, fun _ => rfl⟩,
        ⟨fun habs => absurd habs (by decide), fun hlt => absurd hlt (not_lt.mpr h)⟩⟩
    · rw [if_neg h]
      exact ⟨⟨fun habs => absurd habs (by decide), fun hle => absurd hle h⟩,
        ⟨fun _ => not_le.mp h, fun _ => rfl⟩⟩
  · intro hnd
    have hcnt := count_predict_nodup scores c hne hnd hc0 hc1
    refine ⟨hcnt, ?_⟩
    rw [hcnt]
    have h1 : ⌊c * (scores.length : ℚ)⌋ ≤ round (c * (scores.length : ℚ)) := by
      rw [round_eq]
      exact Int.floor_le_floor (by linarith)
    have h2 : round (c * (scores.length : ℚ)) ≤ ⌊c * (scores.length : ℚ)⌋ + 1 := by
      rw [round_eq]
      have hfl := Int.floor_add_one (c * (scores.length : ℚ))
      have hle : ⌊c * (scores.length : ℚ) + 1 / 2⌋ ≤ ⌊c * (scores.length : ℚ) + 1⌋ :=
        Int.floor_le_floor (by linarith)
      omega
    omega

/-- Witness for C2 on the concrete duplicate-free batch [1/2, 1/4, 3/4, 1]
with contamination 1/2. -/
theorem C2_politica_decisao_witness :
    ([1 / 2, 1 / 4, 3 / 4, 1] : List ℚ) ≠ [] ∧
    ([1 / 2, 1 / 4, 3 / 4, 1] : List ℚ).Nodup ∧
    (0 : ℚ) < 1 / 2 ∧ (1 / 2 : ℚ) < 1 ∧
    (((predict [1 / 2, 1 / 4, 3 / 4, 1] (1 / 2)).count (-1) : ℤ) -
      round ((1 / 2 : ℚ) * (([1 / 2, 1 / 4, 3 / 4, 1] : List ℚ).length : ℚ))).natAbs ≤ 1 := by
  refine ⟨by simp, by norm_num, by norm_num, by norm_num, ?_⟩
  exact ((C2_politica_decisao [1 / 2, 1 / 4, 3 / 4, 1] (1 / 2)
    (by simp) (by norm_num) (by norm_num)).2 (by norm_num)).2

end DeteccaoAnomalia
